import Mathlib

/-!
Verification of the client-side analysis orchestration state machine of
`src/components/features/SpotAnalyzer.tsx`.

The component keeps seven pieces of React state (`selectedImage`,
`selectedFile`, `analysis`, `loading`, `error`, `usageStats`, `provider`)
and exposes four operations: `handleImageUpload` (file validation and
staging), `fetchUsageStats` (quota refresh), `analyzeSpot` (the analysis
request lifecycle) and `resetAnalyzer`.

The host is a single-threaded event-driven UI runtime, so each handler is
embedded as a pure state transformer.  The asynchronous completions a
handler awaits (the `FileReader` load, the `fetch` responses) are folded
into the same step, with the response supplied as an explicit argument.
The network activity of one invocation is recorded as a trace of events,
so that "issues a network call", "exactly one usage-refresh" and the
ordering of the refresh against the terminal state are statable.
-/

namespace SpotAnalyzer

/-- A user-selected file: its MIME type (`file.type`), its byte size
(`file.size`) and the data URL the `FileReader` produces from it
(`reader.readAsDataURL`). -/
structure FileData where
  type : String
  size : Nat
  dataUrl : String
  deriving DecidableEq, Repr

/-- The `usage.daily` object of a `/usage-stats` response body. -/
structure DailyUsage where
  used : Nat
  limit : Nat
  percentage : Rat
  deriving DecidableEq, Repr

/-- The `usage` object of a `/usage-stats` response body. -/
structure UsageData where
  daily : DailyUsage
  deriving DecidableEq, Repr

/-- The React state of the component.  `selectedImage` is the preview data
URL, `selectedFile` the staged file, `analysis` the recommendation text,
`loading` the busy flag, `error` the user-visible error slot, `usageStats`
the usage snapshot (`null` initially) and `provider` the backend name
(`''` initially).  The `fileInputRef` DOM handle is presentational and
carries no orchestration state, so it is not modelled. -/
structure ComponentState where
  selectedImage : Option String
  selectedFile : Option FileData
  analysis : Option String
  loading : Bool
  error : Option String
  usageStats : Option UsageData
  provider : String
  deriving DecidableEq, Repr

/-- The initial state of the component: every `useState` initialiser. -/
def initialState : ComponentState :=
  { selectedImage := none
    selectedFile := none
    analysis := none
    loading := false
    error := none
    usageStats := none
    provider := "" }

/-- Network and bookkeeping events of one handler invocation, in program
order.  `analyzeFetch` is the POST to the analysis endpoint, `usageFetch`
the GET inside `fetchUsageStats` (the refresh being initiated),
`usageRefreshDone` the return of `fetchUsageStats` (the refresh having
completed), `setAnalysisEv`/`setProviderEv` the recording of the response
fields, and `setLoadingFalse` the `finally` block clearing the busy flag
(the terminal state of the invocation). -/
inductive Event where
  | analyzeFetch
  | setAnalysisEv
  | setProviderEv
  | usageFetch
  | usageRefreshDone
  | setLoadingFalse
  deriving DecidableEq, Repr

/-- Outcome of the `fetch('http://localhost:8000/usage-stats')` call as the
handler observes it: `transportError` when the fetch or `response.json()`
throws (network error or malformed body), otherwise the parsed body with
its `success` flag and its optional `usage` field. -/
inductive UsageResponse where
  | transportError
  | ok (success : Bool) (usage : Option UsageData)
  deriving DecidableEq, Repr

/-- Outcome of the POST to an analysis endpoint as the handler observes it:
`transportError` when the fetch or `response.json()` throws; `success` a
body with `success:true` carrying `recommendation` and `provider` (the
response contract guarantees both are present when `success` is true);
`failure` a body with `success:false` and an optional `error` string. -/
inductive AnalyzeResponse where
  | transportError
  | success (recommendation : String) (provider : String)
  | failure (error : Option String)
  deriving DecidableEq, Repr

/-- `file.type.startsWith('image/')`: the character sequence of `pre` is a
prefix of the character sequence of `s` (stated over `String.data` so the
check is kernel-computable). -/
def strStartsWith (s pre : String) : Bool :=
  pre.data.isPrefixOf s.data

/-- JavaScript `a || b` for an optional string `a`: both `undefined` and
the empty string are falsy, so either yields `b`.  Mirrors
`result.error || 'Analysis failed'`. -/
def jsOrString (a : Option String) (b : String) : String :=
  match a with
  | none => b
  | some v => if v = "" then b else v

/-- `handleImageUpload`: validation and staging of `event.target.files?.[0]`.
No file selected is a no-op.  A non-`image/` MIME type or a size above
`10 * 1024 * 1024` bytes only sets the error slot.  Otherwise the error is
cleared, the file staged, and — once the `FileReader` load completes,
which is folded into this step — the preview is installed and `analysis`
cleared. -/
def handleImageUpload (s : ComponentState) (file : Option FileData) :
    ComponentState :=
  match file with
  | none => s
  | some f =>
    if ! strStartsWith f.type "image/" then
      { s with error := some "Please select a valid image file" }
    else if f.size > 10 * 1024 * 1024 then
      { s with error := some "Image too large. Please select an image under 10MB" }
    else
      { s with
          error := none
          selectedFile := some f
          selectedImage := some f.dataUrl
          analysis := none }

/-- `fetchUsageStats`: fetches the quota endpoint; on a parsed body with a
truthy `success` it stores `result.usage` as the snapshot (absent field
included: the snapshot then becomes absent); any thrown error is caught
and only logged.  The trace records the GET and the function's return. -/
def fetchUsageStats (s : ComponentState) (resp : UsageResponse) :
    ComponentState × List Event :=
  let s' :=
    match resp with
    | .transportError => s
    | .ok success usage => if success then { s with usageStats := usage } else s
  (s', [Event.usageFetch, Event.usageRefreshDone])

/-- `analyzeSpot`: with no staged file, returns immediately.  Otherwise
sets the busy flag, clears the error, POSTs the multipart payload, and on
`success:true` records recommendation and provider then awaits
`fetchUsageStats`; on `success:false` sets the error to
`result.error || 'Analysis failed'`; on a thrown error sets the generic
connectivity message.  The `finally` block clears the busy flag on every
path.  The endpoint string does not influence the state transition and is
omitted from the trace events. -/
def analyzeSpot (s : ComponentState) (resp : AnalyzeResponse)
    (usageResp : UsageResponse) : ComponentState × List Event :=
  match s.selectedFile with
  | none => (s, [])
  | some _ =>
    let s1 := { s with loading := true, error := none }
    match resp with
    | .transportError =>
        ({ s1 with
            error := some "Failed to analyze image. Please check your connection and try again."
            loading := false },
         [Event.analyzeFetch, Event.setLoadingFalse])
    | .success rec prov =>
        let s2 := { s1 with analysis := some rec, provider := prov }
        let r := fetchUsageStats s2 usageResp
        ({ r.1 with loading := false },
         Event.analyzeFetch :: Event.setAnalysisEv :: Event.setProviderEv ::
           r.2 ++ [Event.setLoadingFalse])
    | .failure err =>
        ({ s1 with
            error := some (jsOrString err "Analysis failed")
            loading := false },
         [Event.analyzeFetch, Event.setLoadingFalse])

/-- `resetAnalyzer`: unconditionally clears the image, the staged file, the
analysis, the error and the provider.  It does not touch `loading` or
`usageStats` (the file input's DOM value, also cleared, is
presentational). -/
def resetAnalyzer (s : ComponentState) : ComponentState :=
  { s with
      selectedImage := none
      selectedFile := none
      analysis := none
      error := none
      provider := "" }

/-! Concrete sample data used by counterexamples and witnesses. -/

/-- A small valid image file. -/
def sampleFile : FileData :=
  { type := "image/png", size := 2048, dataUrl := "data:image/png;base64,AAAA" }

/-- A non-image file. -/
def textFile : FileData :=
  { type := "text/plain", size := 10, dataUrl := "data:text/plain;base64,QQ" }

/-- An image file one byte over the 10 MiB limit. -/
def hugeFile : FileData :=
  { type := "image/jpeg", size := 10485761, dataUrl := "data:image/jpeg;base64,BB" }

/-- A concrete usage payload. -/
def demoUsage : UsageData :=
  { daily := { used := 5, limit := 25, percentage := 20 } }

/-- State with a staged image, as after a valid upload. -/
def stagedState : ComponentState :=
  handleImageUpload initialState (some sampleFile)

/-- Staged state in which an analysis is in flight (busy flag set). -/
def busyState : ComponentState :=
  { stagedState with loading := true }

/-- State holding a previously fetched usage snapshot. -/
def snapState : ComponentState :=
  { initialState with usageStats := some demoUsage }

/-- State after a successful analysis from `stagedState`. -/
def afterSuccess : ComponentState :=
  (analyzeSpot stagedState
    (AnalyzeResponse.success "Cast near the reeds" "gemini")
    (UsageResponse.ok true (some demoUsage))).1

/-- State after a second analysis that fails while the previous successful
result is still displayed. -/
def afterFailure : ComponentState :=
  (analyzeSpot afterSuccess
    (AnalyzeResponse.failure (some "quota exceeded"))
    UsageResponse.transportError).1

/-! Branch-reduction lemmas: each handler invocation, with its guard
resolved, equals an explicit state/trace pair. -/

theorem fetchUsageStats_analysis (s : ComponentState) (resp : UsageResponse) :
    (fetchUsageStats s resp).1.analysis = s.analysis := by
  cases resp with
  | transportError => rfl
  | ok b u => cases b <;> rfl

theorem fetchUsageStats_provider (s : ComponentState) (resp : UsageResponse) :
    (fetchUsageStats s resp).1.provider = s.provider := by
  cases resp with
  | transportError => rfl
  | ok b u => cases b <;> rfl

theorem fetchUsageStats_error (s : ComponentState) (resp : UsageResponse) :
    (fetchUsageStats s resp).1.error = s.error := by
  cases resp with
  | transportError => rfl
  | ok b u => cases b <;> rfl

theorem analyzeSpot_eq_none (s : ComponentState) (resp : AnalyzeResponse)
    (ur : UsageResponse) (hf : s.selectedFile = none) :
    analyzeSpot s resp ur = (s, []) := by
  unfold analyzeSpot
  rw [hf]

theorem analyzeSpot_eq_success (s : ComponentState) (f : FileData)
    (rec prov : String) (ur : UsageResponse) (hf : s.selectedFile = some f) :
    analyzeSpot s (AnalyzeResponse.success rec prov) ur =
      ({ (fetchUsageStats
            { s with
                loading := true
                error := none
                analysis := some rec
                provider := prov } ur).1 with loading := false },
       [Event.analyzeFetch, Event.setAnalysisEv, Event.setProviderEv,
        Event.usageFetch, Event.usageRefreshDone, Event.setLoadingFalse]) := by
  unfold analyzeSpot
  rw [hf]
  rfl

theorem analyzeSpot_eq_failure (s : ComponentState) (f : FileData)
    (err : Option String) (ur : UsageResponse) (hf : s.selectedFile = some f) :
    analyzeSpot s (AnalyzeResponse.failure err) ur =
      ({ s with
          loading := false
          error := some (jsOrString err "Analysis failed") },
       [Event.analyzeFetch, Event.setLoadingFalse]) := by
  unfold analyzeSpot
  rw [hf]

theorem analyzeSpot_eq_transport (s : ComponentState) (f : FileData)
    (ur : UsageResponse) (hf : s.selectedFile = some f) :
    analyzeSpot s AnalyzeResponse.transportError ur =
      ({ s with
          loading := false
          error := some "Failed to analyze image. Please check your connection and try again." },
       [Event.analyzeFetch, Event.setLoadingFalse]) := by
  unfold analyzeSpot
  rw [hf]

theorem handleImageUpload_eq_invalid_type (s : ComponentState) (f : FileData)
    (hty : strStartsWith f.type "image/" = false) :
    handleImageUpload s (some f) =
      { s with error := some "Please select a valid image file" } := by
  simp [handleImageUpload, hty]

theorem handleImageUpload_eq_too_large (s : ComponentState) (f : FileData)
    (hty : strStartsWith f.type "image/" = true)
    (hsz : 10 * 1024 * 1024 < f.size) :
    handleImageUpload s (some f) =
      { s with error := some "Image too large. Please select an image under 10MB" } := by
  simp [handleImageUpload, hty, hsz]

theorem handleImageUpload_eq_valid (s : ComponentState) (f : FileData)
    (hty : strStartsWith f.type "image/" = true)
    (hsz : f.size ≤ 10 * 1024 * 1024) :
    handleImageUpload s (some f) =
      { s with
          error := none
          selectedFile := some f
          selectedImage := some f.dataUrl
          analysis := none } := by
  simp [handleImageUpload, hty, Nat.not_lt.mpr hsz]

/-- C3: for every analyze invocation with a staged image whose endpoint
responds with `success=true` carrying a recommendation and a provider,
the resulting state holds exactly AnalysisResult
{recommendationText = recommendation, providerUsed = provider}, the error
slot is cleared, and exactly one usage-refresh call is issued. -/
theorem analyzeSpot_success_outcome (s : ComponentState) (f : FileData)
    (rec prov : String) (ur : UsageResponse) (hf : s.selectedFile = some f) :
    (analyzeSpot s (AnalyzeResponse.success rec prov) ur).1.analysis = some rec ∧
    (analyzeSpot s (AnalyzeResponse.success rec prov) ur).1.provider = prov ∧
    (analyzeSpot s (AnalyzeResponse.success rec prov) ur).1.error = none ∧
    (analyzeSpot s (AnalyzeResponse.success rec prov) ur).2.count Event.usageFetch = 1 := by
  rw [analyzeSpot_eq_success s f rec prov ur hf]
  refine ⟨?_, ?_, ?_, rfl⟩
  · simpa using fetchUsageStats_analysis
      { s with loading := true, error := none, analysis := some rec, provider := prov } ur
  · simpa using fetchUsageStats_provider
      { s with loading := true, error := none, analysis := some rec, provider := prov } ur
  · simpa using fetchUsageStats_error
      { s with loading := true, error := none, analysis := some rec, provider := prov } ur

/-- Witness for C3 at the staged demo state with the spec's mocked
response. -/
theorem analyzeSpot_success_outcome_witness :
    (analyzeSpot stagedState
        (AnalyzeResponse.success "Cast near the reeds" "gemini")
        (UsageResponse.ok true (some demoUsage))).1.analysis =
      some "Cast near the reeds" ∧
    (analyzeSpot stagedState
        (AnalyzeResponse.success "Cast near the reeds" "gemini")
        (UsageResponse.ok true (some demoUsage))).1.provider = "gemini" ∧
    (analyzeSpot stagedState
        (AnalyzeResponse.success "Cast near the reeds" "gemini")
        (UsageResponse.ok true (some demoUsage))).1.error = none ∧
    (analyzeSpot stagedState
        (AnalyzeResponse.success "Cast near the reeds" "gemini")
        (UsageResponse.ok true (some demoUsage))).2.count Event.usageFetch = 1 :=
  analyzeSpot_success_outcome stagedState sampleFile "Cast near the reeds"
    "gemini" (UsageResponse.ok true (some demoUsage)) (by decide)

/-- C6: from every state — a loading one included — `resetAnalyzer` clears
the staged image, the staged file, the analysis, the error and the
provider back to their initial values, and applying it twice equals
applying it once. -/
theorem resetAnalyzer_clears_and_idempotent (s : ComponentState) :
    (resetAnalyzer s).selectedImage = initialState.selectedImage ∧
    (resetAnalyzer s).selectedFile = initialState.selectedFile ∧
    (resetAnalyzer s).analysis = initialState.analysis ∧
    (resetAnalyzer s).error = initialState.error ∧
    (resetAnalyzer s).provider = initialState.provider ∧
    resetAnalyzer (resetAnalyzer s) = resetAnalyzer s :=
  ⟨rfl, rfl, rfl, rfl, rfl, rfl⟩

/-- C8: for every file whose MIME type does not start with `image/`,
`handleImageUpload` sets the human-readable validation message in the
error slot and mutates nothing else: the staged image, the staged file,
the analysis, the provider, the busy flag and the usage snapshot all stay
exactly as they were. -/
theorem handleImageUpload_nonimage_preserves (s : ComponentState)
    (f : FileData) (hty : strStartsWith f.type "image/" = false) :
    (handleImageUpload s (some f)).error =
      some "Please select a valid image file" ∧
    (handleImageUpload s (some f)).selectedFile = s.selectedFile ∧
    (handleImageUpload s (some f)).selectedImage = s.selectedImage ∧
    (handleImageUpload s (some f)).analysis = s.analysis ∧
    (handleImageUpload s (some f)).provider = s.provider ∧
    (handleImageUpload s (some f)).loading = s.loading ∧
    (handleImageUpload s (some f)).usageStats = s.usageStats := by
  rw [handleImageUpload_eq_invalid_type s f hty]
  exact ⟨rfl, rfl, rfl, rfl, rfl, rfl, rfl⟩

/-- Witness for C8 on a `text/plain` file against a state holding a prior
result. -/
theorem handleImageUpload_nonimage_preserves_witness :
    (handleImageUpload afterSuccess (some textFile)).error =
      some "Please select a valid image file" ∧
    (handleImageUpload afterSuccess (some textFile)).selectedFile =
      afterSuccess.selectedFile ∧
    (handleImageUpload afterSuccess (some textFile)).selectedImage =
      afterSuccess.selectedImage ∧
    (handleImageUpload afterSuccess (some textFile)).analysis =
      afterSuccess.analysis ∧
    (handleImageUpload afterSuccess (some textFile)).provider =
      afterSuccess.provider ∧
    (handleImageUpload afterSuccess (some textFile)).loading =
      afterSuccess.loading ∧
    (handleImageUpload afterSuccess (some textFile)).usageStats =
      afterSuccess.usageStats :=
  handleImageUpload_nonimage_preserves afterSuccess textFile (by decide)

/-- C9: for every `image/` file of size at least 10485761 bytes,
`handleImageUpload` sets the size-related message and does not stage the
file (the staged file is unchanged); every `image/` file of size at most
10485760 bytes passes the size check and is staged. -/
theorem handleImageUpload_size_check (s : ComponentState) (f : FileData)
    (hty : strStartsWith f.type "image/" = true) :
    (10485761 ≤ f.size →
      (handleImageUpload s (some f)).error =
        some "Image too large. Please select an image under 10MB" ∧
      (handleImageUpload s (some f)).selectedFile = s.selectedFile) ∧
    (f.size ≤ 10485760 →
      (handleImageUpload s (some f)).selectedFile = some f) := by
  constructor
  · intro hsz
    rw [handleImageUpload_eq_too_large s f hty (by omega)]
    exact ⟨rfl, rfl⟩
  · intro hsz
    rw [handleImageUpload_eq_valid s f hty (by omega)]

/-- Witness for C9 at the boundary sizes 10485761 and 2048. -/
theorem handleImageUpload_size_check_witness :
    ((handleImageUpload initialState (some hugeFile)).error =
       some "Image too large. Please select an image under 10MB" ∧
     (handleImageUpload initialState (some hugeFile)).selectedFile =
       initialState.selectedFile) ∧
    (handleImageUpload initialState (some sampleFile)).selectedFile =
      some sampleFile :=
  ⟨(handleImageUpload_size_check initialState hugeFile (by decide)).1
      (by decide),
   (handleImageUpload_size_check initialState sampleFile (by decide)).2
      (by decide)⟩

/-- C1 counterexample: with an analysis already in flight (busy flag set)
and a staged file, a second `analyzeSpot` invocation is not rejected or
ignored: it issues a network call and changes the state. -/
theorem analyzeSpot_busy_counterexample :
    Event.analyzeFetch ∈
      (analyzeSpot busyState (AnalyzeResponse.success "r" "gemini")
        (UsageResponse.ok true none)).2 ∧
    (analyzeSpot busyState (AnalyzeResponse.success "r" "gemini")
        (UsageResponse.ok true none)).1 ≠ busyState := by
  decide

/-- C1 (amended): `analyzeSpot` guards only on the absence of a staged
file — with none staged it is a no-op issuing no network call — and has
no busy-flag guard: invoked with a staged file it issues a network call
and ends with the busy flag cleared whatever the flag was on entry, so
in-flight exclusion relies solely on the UI disabling the trigger. -/
theorem analyzeSpot_guard_is_staged_file_only (s : ComponentState)
    (resp : AnalyzeResponse) (ur : UsageResponse) :
    (s.selectedFile = none → analyzeSpot s resp ur = (s, [])) ∧
    (∀ f : FileData, s.selectedFile = some f →
      Event.analyzeFetch ∈ (analyzeSpot s resp ur).2 ∧
      (analyzeSpot s resp ur).1.loading = false) := by
  constructor
  · intro hf
    exact analyzeSpot_eq_none s resp ur hf
  · intro f hf
    cases resp with
    | transportError =>
        rw [analyzeSpot_eq_transport s f ur hf]
        exact ⟨by dsimp only; decide, rfl⟩
    | success rec prov =>
        rw [analyzeSpot_eq_success s f rec prov ur hf]
        exact ⟨by dsimp only; decide, rfl⟩
    | failure err =>
        rw [analyzeSpot_eq_failure s f err ur hf]
        exact ⟨by dsimp only; decide, rfl⟩

/-- Witness for the amended C1 at the busy staged state. -/
theorem analyzeSpot_guard_is_staged_file_only_witness :
    Event.analyzeFetch ∈
      (analyzeSpot busyState (AnalyzeResponse.failure none)
        UsageResponse.transportError).2 ∧
    (analyzeSpot busyState (AnalyzeResponse.failure none)
        UsageResponse.transportError).1.loading = false :=
  (analyzeSpot_guard_is_staged_file_only busyState
      (AnalyzeResponse.failure none) UsageResponse.transportError).2
    sampleFile (by decide)

/-- C2 counterexample: in the state reached from the initial state by a
valid upload, a successful analysis and then a failing analysis, both the
previous AnalysisResult and the new AnalysisError are current — the
failure branch sets the error without clearing the analysis. -/
theorem mutual_exclusion_counterexample :
    afterFailure.analysis = some "Cast near the reeds" ∧
    afterFailure.error = some "quota exceeded" :=
  ⟨rfl, rfl⟩

/-- C2 (amended): a successful analyze leaves no error, a valid upload and
a reset clear both slots, but an analyze call that fails while a previous
successful result is current keeps that result alongside the new error,
so in exactly that case two of {AnalysisResult, AnalysisError} are
current at once. -/
theorem mutual_exclusion_amended (s : ComponentState) (f : FileData)
    (rec prov r : String) (err : Option String) (ur : UsageResponse) :
    (s.selectedFile = some f →
      (analyzeSpot s (AnalyzeResponse.success rec prov) ur).1.error = none) ∧
    ((resetAnalyzer s).analysis = none ∧ (resetAnalyzer s).error = none) ∧
    (strStartsWith f.type "image/" = true → f.size ≤ 10 * 1024 * 1024 →
      (handleImageUpload s (some f)).analysis = none ∧
      (handleImageUpload s (some f)).error = none) ∧
    (s.selectedFile = some f → s.analysis = some r →
      (analyzeSpot s (AnalyzeResponse.failure err) ur).1.analysis = some r ∧
      (analyzeSpot s (AnalyzeResponse.failure err) ur).1.error ≠ none) := by
  refine ⟨?_, ⟨rfl, rfl⟩, ?_, ?_⟩
  · intro hf
    rw [analyzeSpot_eq_success s f rec prov ur hf]
    simpa using fetchUsageStats_error
      { s with loading := true, error := none, analysis := some rec, provider := prov } ur
  · intro hty hsz
    rw [handleImageUpload_eq_valid s f hty hsz]
    exact ⟨rfl, rfl⟩
  · intro hf ha
    rw [analyzeSpot_eq_failure s f err ur hf]
    exact ⟨ha, by simp⟩

/-- Witness for the amended C2: the failing-analyze case at the state
holding the previous successful result. -/
theorem mutual_exclusion_amended_witness :
    (analyzeSpot afterSuccess (AnalyzeResponse.failure (some "quota exceeded"))
        UsageResponse.transportError).1.analysis = some "Cast near the reeds" ∧
    (analyzeSpot afterSuccess (AnalyzeResponse.failure (some "quota exceeded"))
        UsageResponse.transportError).1.error ≠ none :=
  (mutual_exclusion_amended afterSuccess sampleFile "x" "y"
      "Cast near the reeds" (some "quota exceeded")
      UsageResponse.transportError).2.2.2 (by decide) (by decide)

/-- C4 counterexample: a `success:false` response whose `error` field is
the empty string yields the fallback message, not the empty message —
`result.error || 'Analysis failed'` treats `''` as falsy. -/
theorem failure_empty_error_counterexample :
    (analyzeSpot stagedState (AnalyzeResponse.failure (some ""))
        UsageResponse.transportError).1.error ≠ some "" ∧
    (analyzeSpot stagedState (AnalyzeResponse.failure (some ""))
        UsageResponse.transportError).1.error = some "Analysis failed" := by
  decide

/-- C4 (amended): on `success:false` the emitted message equals the
response's `error` field when that field is present and non-empty, and is
"Analysis failed" when the field is absent or empty; no usage-refresh
call is issued. -/
theorem analyzeSpot_failure_error_message (s : ComponentState)
    (f : FileData) (err : Option String) (ur : UsageResponse)
    (hf : s.selectedFile = some f) :
    ((err = none ∨ err = some "") →
      (analyzeSpot s (AnalyzeResponse.failure err) ur).1.error =
        some "Analysis failed") ∧
    (∀ v : String, err = some v → v ≠ "" →
      (analyzeSpot s (AnalyzeResponse.failure err) ur).1.error = some v) ∧
    Event.usageFetch ∉ (analyzeSpot s (AnalyzeResponse.failure err) ur).2 := by
  rw [analyzeSpot_eq_failure s f err ur hf]
  refine ⟨?_, ?_, by dsimp only; decide⟩
  · rintro (rfl | rfl) <;> rfl
  · rintro v rfl hv
    show some (jsOrString (some v) "Analysis failed") = some v
    simp [jsOrString, hv]

/-- Witness for the amended C4 with the spec's mocked failure response. -/
theorem analyzeSpot_failure_error_message_witness :
    (analyzeSpot stagedState (AnalyzeResponse.failure (some "quota exceeded"))
        UsageResponse.transportError).1.error = some "quota exceeded" ∧
    Event.usageFetch ∉
      (analyzeSpot stagedState
        (AnalyzeResponse.failure (some "quota exceeded"))
        UsageResponse.transportError).2 :=
  ⟨(analyzeSpot_failure_error_message stagedState sampleFile
      (some "quota exceeded") UsageResponse.transportError (by decide)).2.1
      "quota exceeded" rfl (by decide),
   (analyzeSpot_failure_error_message stagedState sampleFile
      (some "quota exceeded") UsageResponse.transportError (by decide)).2.2⟩

/-- C5 counterexample: a valid upload over a state holding a previous
result leaves the `providerUsed` component untouched — `handleImageUpload`
never resets `provider`, which still differs from its cleared value. -/
theorem upload_keeps_provider_counterexample :
    (handleImageUpload afterSuccess (some sampleFile)).provider = "gemini" ∧
    "gemini" ≠ "" := by
  decide

/-- C5 (amended): for every file passing validation, `handleImageUpload`
clears the prior recommendation text and any prior error and installs the
new staged image, but leaves the `providerUsed` component unchanged. -/
theorem handleImageUpload_valid_clears (s : ComponentState) (f : FileData)
    (hty : strStartsWith f.type "image/" = true)
    (hsz : f.size ≤ 10 * 1024 * 1024) :
    (handleImageUpload s (some f)).analysis = none ∧
    (handleImageUpload s (some f)).error = none ∧
    (handleImageUpload s (some f)).selectedFile = some f ∧
    (handleImageUpload s (some f)).selectedImage = some f.dataUrl ∧
    (handleImageUpload s (some f)).provider = s.provider := by
  rw [handleImageUpload_eq_valid s f hty hsz]
  exact ⟨rfl, rfl, rfl, rfl, rfl⟩

/-- Witness for the amended C5 at the state holding a previous result. -/
theorem handleImageUpload_valid_clears_witness :
    (handleImageUpload afterSuccess (some sampleFile)).analysis = none ∧
    (handleImageUpload afterSuccess (some sampleFile)).error = none ∧
    (handleImageUpload afterSuccess (some sampleFile)).selectedFile =
      some sampleFile ∧
    (handleImageUpload afterSuccess (some sampleFile)).selectedImage =
      some sampleFile.dataUrl ∧
    (handleImageUpload afterSuccess (some sampleFile)).provider =
      afterSuccess.provider :=
  handleImageUpload_valid_clears afterSuccess sampleFile (by decide)
    (by decide)

/-- C7 counterexample: in the trace of a successful invocation the
refresh completion strictly precedes the clearing of the busy flag: the
`await fetchUsageStats()` makes the caller wait for the refresh before
reaching its terminal state, contradicting "its own completion is not
awaited". -/
theorem refresh_awaited_counterexample :
    Event.usageRefreshDone ∈
      (analyzeSpot stagedState
        (AnalyzeResponse.success "Cast near the reeds" "gemini")
        (UsageResponse.ok true (some demoUsage))).2 ∧
    (analyzeSpot stagedState
        (AnalyzeResponse.success "Cast near the reeds" "gemini")
        (UsageResponse.ok true (some demoUsage))).2.indexOf
        Event.usageRefreshDone <
      (analyzeSpot stagedState
        (AnalyzeResponse.success "Cast near the reeds" "gemini")
        (UsageResponse.ok true (some demoUsage))).2.indexOf
        Event.setLoadingFalse := by
  decide

/-- C7 (amended): within one successful invocation the usage-refresh is
initiated only after the response is fully processed (recommendation and
provider recorded) and never concurrently with it, but its completion IS
awaited: the refresh finishes before the busy flag clears and the
invocation reaches its terminal state. -/
theorem analyzeSpot_refresh_ordering (s : ComponentState) (f : FileData)
    (rec prov : String) (ur : UsageResponse) (hf : s.selectedFile = some f) :
    (analyzeSpot s (AnalyzeResponse.success rec prov) ur).2.indexOf
        Event.setAnalysisEv <
      (analyzeSpot s (AnalyzeResponse.success rec prov) ur).2.indexOf
        Event.usageFetch ∧
    (analyzeSpot s (AnalyzeResponse.success rec prov) ur).2.indexOf
        Event.setProviderEv <
      (analyzeSpot s (AnalyzeResponse.success rec prov) ur).2.indexOf
        Event.usageFetch ∧
    (analyzeSpot s (AnalyzeResponse.success rec prov) ur).2.indexOf
        Event.usageFetch <
      (analyzeSpot s (AnalyzeResponse.success rec prov) ur).2.indexOf
        Event.usageRefreshDone ∧
    (analyzeSpot s (AnalyzeResponse.success rec prov) ur).2.indexOf
        Event.usageRefreshDone <
      (analyzeSpot s (AnalyzeResponse.success rec prov) ur).2.indexOf
        Event.setLoadingFalse ∧
    Event.usageRefreshDone ∈
      (analyzeSpot s (AnalyzeResponse.success rec prov) ur).2 := by
  rw [analyzeSpot_eq_success s f rec prov ur hf]
  dsimp only
  decide

/-- Witness for the amended C7 at the staged demo state. -/
theorem analyzeSpot_refresh_ordering_witness :
    (analyzeSpot stagedState (AnalyzeResponse.success "r" "g")
        (UsageResponse.ok true none)).2.indexOf Event.setAnalysisEv <
      (analyzeSpot stagedState (AnalyzeResponse.success "r" "g")
        (UsageResponse.ok true none)).2.indexOf Event.usageFetch ∧
    (analyzeSpot stagedState (AnalyzeResponse.success "r" "g")
        (UsageResponse.ok true none)).2.indexOf Event.setProviderEv <
      (analyzeSpot stagedState (AnalyzeResponse.success "r" "g")
        (UsageResponse.ok true none)).2.indexOf Event.usageFetch ∧
    (analyzeSpot stagedState (AnalyzeResponse.success "r" "g")
        (UsageResponse.ok true none)).2.indexOf Event.usageFetch <
      (analyzeSpot stagedState (AnalyzeResponse.success "r" "g")
        (UsageResponse.ok true none)).2.indexOf Event.usageRefreshDone ∧
    (analyzeSpot stagedState (AnalyzeResponse.success "r" "g")
        (UsageResponse.ok true none)).2.indexOf Event.usageRefreshDone <
      (analyzeSpot stagedState (AnalyzeResponse.success "r" "g")
        (UsageResponse.ok true none)).2.indexOf Event.setLoadingFalse ∧
    Event.usageRefreshDone ∈
      (analyzeSpot stagedState (AnalyzeResponse.success "r" "g")
        (UsageResponse.ok true none)).2 :=
  analyzeSpot_refresh_ordering stagedState sampleFile "r" "g"
    (UsageResponse.ok true none) (by decide)

/-- C10 counterexample: a parsed body with `success:true` but no `usage`
field does not leave the snapshot untouched — `setUsageStats(result.usage)`
replaces the present snapshot with the absent field. -/
theorem usage_missing_field_counterexample :
    snapState.usageStats = some demoUsage ∧
    (fetchUsageStats snapState (UsageResponse.ok true none)).1.usageStats =
      none :=
  ⟨rfl, rfl⟩

/-- C10 (amended): a transport error, a malformed body or `success:false`
leaves the whole state — the snapshot included — unchanged and surfaces
no error; but any `success:true` body replaces the snapshot with its
`usage` field verbatim, clearing the snapshot when the field is absent and
installing the reported values when it is present. -/
theorem fetchUsageStats_amended (s : ComponentState) (u : Option UsageData) :
    (fetchUsageStats s UsageResponse.transportError).1 = s ∧
    (fetchUsageStats s (UsageResponse.ok false u)).1 = s ∧
    (fetchUsageStats s (UsageResponse.ok true u)).1.usageStats = u ∧
    (fetchUsageStats s (UsageResponse.ok true u)).1.error = s.error :=
  ⟨rfl, rfl, rfl, rfl⟩

end SpotAnalyzer
